import Mathlib

/-!
Shallow embedding of `hawkauthlib/utils.py`: the Hawk authorization-header
parser, the normalized request / payload string builders, the HMAC signer
and the constant-time string comparison, together with proofs of the
specification claims about them.

Python strings are modelled as Lean `String` (with `List Char` workhorses),
bytes as `List Nat` (each < 256), Python exceptions as an explicit error
type `PyErr`, and fallible functions return `Except PyErr _`.
-/

namespace Hawk

/-- Python exceptions that the modelled code can raise. -/
inductive PyErr where
  | valueError : String → PyErr
  | keyError : String → PyErr
  | unicodeEncodeError : PyErr
deriving DecidableEq, Repr

/-- ASCII whitespace in the sense of Python `str.split(None)` / `str.strip()`
and of the regex class `\s` (space, tab, newline, carriage return,
vertical tab, form feed). -/
def isWs (c : Char) : Bool :=
  c == ' ' || c == '\t' || c == '\n' || c == '\r' || c == '\x0b' || c == '\x0c'

/-- A character of the regex class `[a-zA-Z0-9_\-]` used for parameter
names and unquoted parameter values. -/
def isTokenChar (c : Char) : Bool :=
  c.isAlpha || c.isDigit || c == '_' || c == '-'

/-- Python `str.lower()` restricted to ASCII. -/
def pyLower (s : String) : String := ⟨s.data.map Char.toLower⟩

/-- Python `str.upper()` restricted to ASCII. -/
def pyUpper (s : String) : String := ⟨s.data.map Char.toUpper⟩

/-- Python `str.strip()`: drop whitespace at both ends. -/
def pyStripL (l : List Char) : List Char :=
  ((l.dropWhile isWs).reverse.dropWhile isWs).reverse

/-- Python `s.split(None, 1)`: strip leading whitespace, cut the first run
of non-whitespace as the first piece, strip the whitespace after it, and
return the (possibly empty) remainder verbatim as the second piece.
An all-whitespace string yields `[]`, a single token yields one piece. -/
def pySplitNone1 (s : String) : List String :=
  let l := s.data.dropWhile isWs
  match l with
  | [] => []
  | _ =>
    let tok := l.takeWhile (fun c => !isWs c)
    let rest := (l.dropWhile (fun c => !isWs c)).dropWhile isWs
    match rest with
    | [] => [⟨tok⟩]
    | _ => [⟨tok⟩, ⟨rest⟩]

/-- Python `s.split(",")` on a character list: always at least one chunk. -/
def splitComma : List Char → List (List Char)
  | [] => [[]]
  | c :: rest =>
    let r := splitComma rest
    if c = ',' then [] :: r
    else
      match r with
      | h :: t => (c :: h) :: t
      | [] => [[c]]

/-- Python `s.split("=", 1)` when at least one `=` occurs: the part before
the first `=` and the part after it; `none` when no `=` occurs (in which
case the two-way unpacking in the source raises `ValueError`). -/
def splitEq1 : List Char → Option (List Char × List Char)
  | [] => none
  | c :: rest =>
    if c = '=' then some ([], rest)
    else (splitEq1 rest).map (fun kv => (c :: kv.1, kv.2))

/-- Does the value part match the quoted alternatives of `_AUTH_PARAM_RE`,
`("")|(".*[^\\]")`, followed by `\s*$`?  The closing quote must be the last
non-whitespace character; the characters matched by `.*` may not contain a
newline; the character before the closing quote may not be a backslash. -/
def quotedValueMatch (v : List Char) : Bool :=
  match v with
  | '"' :: rest =>
    match rest.reverse.dropWhile isWs with
    | '"' :: innerRev =>
      match innerRev with
      | [] => true
      | c :: arev => c != '\\' && arev.all (fun x => x != '\n')
    | _ => false
  | _ => false

/-- Does the value part match `(([a-zA-Z0-9_\-]+)|("")|(".*[^\\]"))\s*$`? -/
def valueMatch (v : List Char) : Bool :=
  (!(v.takeWhile isTokenChar).isEmpty && (v.dropWhile isTokenChar).all isWs)
  || quotedValueMatch v

/-- The compiled regex `_AUTH_PARAM_RE`,
`^\s*([a-zA-Z0-9_\-]+)=(([a-zA-Z0-9_\-]+)|("")|(".*[^\\]"))\s*$`,
as a Boolean matcher on a candidate `key=value` chunk. -/
def authParamMatch (l : List Char) : Bool :=
  let s1 := l.dropWhile isWs
  let key := s1.takeWhile isTokenChar
  match s1.dropWhile isTokenChar with
  | '=' :: v => !key.isEmpty && valueMatch v
  | _ => false

/-- `_UNESC_QUOTE_RE.search`, regex `(^")|([^\\]")`: an unescaped quote —
a quote at position 0, or any quote preceded by a non-backslash. -/
def unescQuoteScan : List Char → Bool
  | a :: b :: rest => (a != '\\' && b = '"') || unescQuoteScan (b :: rest)
  | _ => false

/-- Full `_UNESC_QUOTE_RE.search` including the position-0 alternative. -/
def unescQuote (l : List Char) : Bool :=
  (match l with | '"' :: _ => true | _ => false) || unescQuoteScan l

/-- `_ESCAPED_CHAR.sub(lambda m: m.group(0)[1], value)`: replace every
backslash-escaped character `\X` by `X`, left to right, non-overlapping;
`.` does not match a newline, so a backslash before a newline is kept. -/
def escSub : List Char → List Char
  | [] => []
  | ['\\'] => ['\\']
  | '\\' :: c :: rest =>
    if c = '\n' then '\\' :: escSub (c :: rest) else c :: escSub rest
  | c :: rest => c :: escSub rest

/-- The parameter dictionary built by the parser: an association list with
Python `dict` semantics (insertion order, overwrite in place). -/
abbrev AuthParams := List (String × String)

/-- Python `d[k] = v` on a dict modelled as an ordered association list:
overwrite in place when the key exists, append otherwise. -/
def dinsert (m : AuthParams) (k v : String) : AuthParams :=
  if (m.lookup k).isSome then
    m.map (fun p => if p.1 == k then (k, v) else p)
  else m ++ [(k, v)]

/-- The comma-rejoin loop of `parse_authz_header` (accumulator reversed):
append the next chunk when the last accepted chunk matches the parameter
regex, otherwise stitch the next chunk back onto it with a comma. -/
def stitchAux (acc : List (List Char)) : List (List Char) → List (List Char)
  | [] => acc
  | chunk :: rest =>
    match acc with
    | [] => stitchAux [chunk] rest
    | last :: prev =>
      if authParamMatch last then stitchAux (chunk :: last :: prev) rest
      else stitchAux ((last ++ ',' :: chunk) :: prev) rest

/-- The list `kvpairs` after the comma-splitting / rejoining loop. -/
def stitch (chunks : List (List Char)) : List (List Char) :=
  (stitchAux [] chunks).reverse

/-- The body of the `for kvpair in kvpairs` loop: strip the chunk, split at
the first `=`, and for quoted values strip the quotes, reject an unescaped
inner quote, and resolve backslash escapes. -/
def parseKvpair (params : AuthParams) (kv : List Char) : Except PyErr AuthParams :=
  match splitEq1 (pyStripL kv) with
  | none => .error (.valueError "not enough values to unpack")
  | some (key, value) =>
    if value.head? = some '"' then
      if unescQuote ((value.drop 1).dropLast) then
        .error (.valueError "Unescaped quote in quoted-string")
      else .ok (dinsert params ⟨key⟩ ⟨escSub ((value.drop 1).dropLast)⟩)
    else .ok (dinsert params ⟨key⟩ ⟨value⟩)

/-- The `kvpairs` list of the parse: empty for an empty parameter string,
else the stitched chunks, rejected when the final chunk still fails the
parameter grammar. -/
def kvpairsOf (kvl : List Char) : Except PyErr (List (List Char)) :=
  if kvl.isEmpty then .ok []
  else
    match (stitch (splitComma kvl)).getLast? with
    | some last =>
      if authParamMatch last then .ok (stitch (splitComma kvl))
      else .error (.valueError "Malformed auth parameters")
    | none => .error (.valueError "Malformed auth parameters")

/-- `parse_authz_header` without the outer `try`/`except ValueError`:
the behavior when no default is supplied. `authz` is the value of the
`HTTP_AUTHORIZATION` environ entry, absent when the header is missing. -/
def parse_authz_header_inner (authz : Option String) : Except PyErr AuthParams :=
  match authz with
  | none => .error (.valueError "Missing auth parameters")
  | some a =>
    match pySplitNone1 a with
    | [scheme, kvpairsStr] =>
      match kvpairsOf kvpairsStr.data with
      | .error e => .error e
      | .ok kvs => kvs.foldlM parseKvpair [("scheme", scheme)]
    | _ => .error (.valueError "not enough values to unpack")

/-- `parse_authz_header(request, *default)`: the outer `try`/`except
ValueError` returns the supplied default instead of raising. -/
def parse_authz_header (authz : Option String) (default : Option AuthParams) :
    Except PyErr AuthParams :=
  match parse_authz_header_inner authz with
  | .ok m => .ok m
  | .error e =>
    match e, default with
    | .valueError _, some d => .ok d
    | _, _ => .error e

/-- The fields of a WebOb request that the modelled functions consume:
HTTP method, path with query string, host header value (which may embed
`:port`), URL scheme, the raw `HTTP_AUTHORIZATION` environ entry (absent
when the header is missing), the content type and the decoded body text. -/
structure Request where
  method : String
  path_qs : String
  host : String
  scheme : String
  authz : Option String
  content_type : String
  text : String
deriving DecidableEq, Repr

/-- Python `"\n".join(bits)`. -/
def joinNl : List String → String
  | [] => ""
  | [x] => x
  | x :: rest => x ++ "\n" ++ joinNl rest

/-- Python `host.rsplit(":", 1)` when a colon occurs: the part before the
last colon and the part after it; `none` when no colon occurs (the two-way
unpacking then raises `ValueError` in the source). -/
def rsplitColon1 : List Char → Option (List Char × List Char)
  | [] => none
  | c :: rest =>
    match rsplitColon1 rest with
    | some hp => some (c :: hp.1, hp.2)
    | none => if c = ':' then some ([], rest) else none

/-- The `try: host, port = request.host.rsplit(":", 1) except ValueError`
block: split an explicit `:port` suffix off the host, otherwise derive the
default port from the scheme, raising for an unknown scheme. -/
def hostPort (host scheme : String) : Except PyErr (String × String) :=
  match rsplitColon1 host.data with
  | some hp => .ok (⟨hp.1⟩, ⟨hp.2⟩)
  | none =>
    if scheme = "http" then .ok (host, "80")
    else if scheme = "https" then .ok (host, "443")
    else .error (.valueError ("Unknown scheme " ++ scheme ++ " has no default port"))

/-- Python `params.get(k, d)`. -/
def pyGet (m : AuthParams) (k d : String) : String := (m.lookup k).getD d

/-- The hash field of the normalized request string: the server-supplied
hash when given, else the `hash` parameter, defaulting to the empty string. -/
def hashField (m : AuthParams) (server_hash : Option String) : String :=
  match server_hash with
  | some h => h
  | none => pyGet m "hash" ""

/-- `get_normalized_request_string(request, params=None, server_hash=None)`:
the Hawk normalized request string.  When `params?` is `none` the
Authorization header is parsed with default `{}`. -/
def get_normalized_request_string (req : Request) (params? : Option AuthParams)
    (server_hash : Option String) : Except PyErr String :=
  let pres : Except PyErr AuthParams :=
    match params? with
    | some p => .ok p
    | none => parse_authz_header req.authz (some [])
  match pres with
  | .error e => .error e
  | .ok params =>
    match params.lookup "ts" with
    | none => .error (.keyError "ts")
    | some ts =>
      match params.lookup "nonce" with
      | none => .error (.keyError "nonce")
      | some nonce =>
        match hostPort req.host req.scheme with
        | .error e => .error e
        | .ok hp =>
          .ok (joinNl ["hawk.1.header", ts, nonce, pyUpper req.method,
            req.path_qs, pyLower hp.1, hp.2,
            hashField params server_hash, pyGet params "ext" "", ""])

/-- `request.content_type.split(';')[0].strip().lower()`. -/
def ctNorm (s : String) : String :=
  pyLower ⟨pyStripL (s.data.takeWhile (fun c => c ≠ ';'))⟩

/-- `get_normalized_payload_string(request)`: absent (`none`) when the body
text is empty, else the `hawk.1.payload` normalized string. -/
def get_normalized_payload_string (req : Request) : Option String :=
  if req.text = "" then none
  else some (joinNl ["hawk.1.payload", ctNorm req.content_type, req.text, ""])

/-- 32-bit right rotation on a `Nat` representing a machine word. -/
def rotr32 (x n : Nat) : Nat :=
  ((x >>> n) ||| (x <<< (32 - n))) % 4294967296

/-- 32-bit left rotation on a `Nat` representing a machine word. -/
def rotl32 (x n : Nat) : Nat :=
  ((x <<< n) ||| (x >>> (32 - n))) % 4294967296

/-- Big-endian 32-bit words from a byte list (groups of four). -/
def wordsOfBytes : List Nat → List Nat
  | a :: b :: c :: d :: rest =>
    (a * 16777216 + b * 65536 + c * 256 + d) :: wordsOfBytes rest
  | _ => []

/-- Big-endian bytes of a 32-bit word. -/
def bytesOfWord32 (w : Nat) : List Nat :=
  [w / 16777216 % 256, w / 65536 % 256, w / 256 % 256, w % 256]

/-- Merkle–Damgård padding shared by SHA-1 and SHA-256: append `0x80`,
zeros to 56 mod 64, and the bit length as eight big-endian bytes. -/
def shaPad (msg : List Nat) : List Nat :=
  let l := msg.length
  let zeros := (119 - l % 64) % 64
  msg ++ 128 :: List.replicate zeros 0 ++
    [8 * l / 72057594037927936 % 256, 8 * l / 281474976710656 % 256,
     8 * l / 1099511627776 % 256, 8 * l / 4294967296 % 256,
     8 * l / 16777216 % 256, 8 * l / 65536 % 256,
     8 * l / 256 % 256, 8 * l % 256]

/-- Split a byte list into 64-byte blocks. -/
def chunks64 (l : List Nat) : List (List Nat) :=
  if h : l = [] then []
  else l.take 64 :: chunks64 (l.drop 64)
termination_by l.length
decreasing_by
  have hl : 0 < l.length := List.length_pos.mpr h
  simp [List.length_drop]
  omega

/-- The SHA-256 round constants (FIPS 180-4, in decimal). -/
def sha256K : List Nat :=
  [1116352408, 1899447441, 3049323471, 3921009573, 961987163, 1508970993,
   2453635748, 2870763221, 3624381080, 310598401, 607225278, 1426881987,
   1925078388, 2162078206, 2614888103, 3248222580, 3835390401, 4022224774,
   264347078, 604807628, 770255983, 1249150122, 1555081692, 1996064986,
   2554220882, 2821834349, 2952996808, 3210313671, 3336571891, 3584528711,
   113926993, 338241895, 666307205, 773529912, 1294757372, 1396182291,
   1695183700, 1986661051, 2177026350, 2456956037, 2730485921, 2820302411,
   3259730800, 3345764771, 3516065817, 3600352804, 4094571909, 275423344,
   430227734, 506948616, 659060556, 883997877, 958139571, 1322822218,
   1537002063, 1747873779, 1955562222, 2024104815, 2227730452, 2361852424,
   2428436474, 2756734187, 3204031479, 3329325298]

/-- The SHA-256 message schedule: extend 16 words to 64. -/
def sha256Schedule (ws : List Nat) : Array Nat :=
  (List.range 48).foldl
    (fun w j =>
      let i := j + 16
      let x15 := w.getD (i - 15) 0
      let x2 := w.getD (i - 2) 0
      let s0 := (rotr32 x15 7) ^^^ (rotr32 x15 18) ^^^ (x15 >>> 3)
      let s1 := (rotr32 x2 17) ^^^ (rotr32 x2 19) ^^^ (x2 >>> 10)
      w.push ((w.getD (i - 16) 0 + s0 + w.getD (i - 7) 0 + s1) % 4294967296))
    ws.toArray

/-- One SHA-256 compression step. -/
def sha256Round (st : Nat × Nat × Nat × Nat × Nat × Nat × Nat × Nat)
    (kw : Nat × Nat) : Nat × Nat × Nat × Nat × Nat × Nat × Nat × Nat :=
  let (a, b, c, d, e, f, g, h) := st
  let s1 := (rotr32 e 6) ^^^ (rotr32 e 11) ^^^ (rotr32 e 25)
  let ch := (e &&& f) ^^^ ((4294967295 - e) &&& g)
  let t1 := (h + s1 + ch + kw.1 + kw.2) % 4294967296
  let s0 := (rotr32 a 2) ^^^ (rotr32 a 13) ^^^ (rotr32 a 22)
  let mj := (a &&& b) ^^^ (a &&& c) ^^^ (b &&& c)
  let t2 := (s0 + mj) % 4294967296
  ((t1 + t2) % 4294967296, a, b, c, (d + t1) % 4294967296, e, f, g)

/-- SHA-256 compression of one 64-byte block into the running state. -/
def sha256Block (hs : List Nat) (block : List Nat) : List Nat :=
  let w := sha256Schedule (wordsOfBytes block)
  let init := (hs.getD 0 0, hs.getD 1 0, hs.getD 2 0, hs.getD 3 0,
               hs.getD 4 0, hs.getD 5 0, hs.getD 6 0, hs.getD 7 0)
  let fin := (sha256K.zip w.toList).foldl sha256Round init
  let (a, b, c, d, e, f, g, h) := fin
  [(hs.getD 0 0 + a) % 4294967296, (hs.getD 1 0 + b) % 4294967296,
   (hs.getD 2 0 + c) % 4294967296, (hs.getD 3 0 + d) % 4294967296,
   (hs.getD 4 0 + e) % 4294967296, (hs.getD 5 0 + f) % 4294967296,
   (hs.getD 6 0 + g) % 4294967296, (hs.getD 7 0 + h) % 4294967296]

/-- `hashlib.sha256(msg).digest()` as a byte list. -/
def sha256 (msg : List Nat) : List Nat :=
  let hs := (chunks64 (shaPad msg)).foldl sha256Block
    [1779033703, 3144134277, 1013904242, 2773480762,
     1359893119, 2600822924, 528734635, 1541459225]
  hs.foldr (fun w acc => bytesOfWord32 w ++ acc) []

/-- One SHA-1 round: the state plus the round index and schedule word. -/
def sha1Round (st : Nat × Nat × Nat × Nat × Nat) (iw : Nat × Nat) :
    Nat × Nat × Nat × Nat × Nat :=
  let (a, b, c, d, e) := st
  let (i, w) := iw
  let f :=
    if i < 20 then (b &&& c) ^^^ ((4294967295 - b) &&& d)
    else if i < 40 then b ^^^ c ^^^ d
    else if i < 60 then (b &&& c) ^^^ (b &&& d) ^^^ (c &&& d)
    else b ^^^ c ^^^ d
  let k :=
    if i < 20 then 1518500249
    else if i < 40 then 1859775393
    else if i < 60 then 2400959708
    else 3395469782
  ((rotl32 a 5 + f + e + k + w) % 4294967296, a, rotl32 b 30, c, d)

/-- The SHA-1 message schedule: extend 16 words to 80. -/
def sha1Schedule (ws : List Nat) : Array Nat :=
  (List.range 64).foldl
    (fun w j =>
      let i := j + 16
      w.push (rotl32 (w.getD (i - 3) 0 ^^^ w.getD (i - 8) 0 ^^^
        w.getD (i - 14) 0 ^^^ w.getD (i - 16) 0) 1))
    ws.toArray

/-- SHA-1 compression of one 64-byte block into the running state. -/
def sha1Block (hs : List Nat) (block : List Nat) : List Nat :=
  let w := sha1Schedule (wordsOfBytes block)
  let init := (hs.getD 0 0, hs.getD 1 0, hs.getD 2 0, hs.getD 3 0, hs.getD 4 0)
  let fin := ((List.range 80).zip w.toList).foldl sha1Round init
  let (a, b, c, d, e) := fin
  [(hs.getD 0 0 + a) % 4294967296, (hs.getD 1 0 + b) % 4294967296,
   (hs.getD 2 0 + c) % 4294967296, (hs.getD 3 0 + d) % 4294967296,
   (hs.getD 4 0 + e) % 4294967296]

/-- `hashlib.sha1(msg).digest()` as a byte list. -/
def sha1 (msg : List Nat) : List Nat :=
  let hs := (chunks64 (shaPad msg)).foldl sha1Block
    [1732584193, 4023233417, 2562383102, 271733878, 3285377520]
  hs.foldr (fun w acc => bytesOfWord32 w ++ acc) []

/-- A hash constructor as registered in the algorithm registry: its HMAC
block size in bytes and its digest function. -/
structure HashMod where
  block_size : Nat
  digest : List Nat → List Nat

/-- Modelled from the spec: the fixed algorithm registry `ALGORITHMS`
(referenced by `get_signature` but defined outside the given source files),
"a fixed mapping from algorithm name (e.g. `\"sha256\"`, `\"sha1\"`) to a
hash constructor, closed at build time". -/
def ALGORITHMS : List (String × HashMod) :=
  [("sha1", ⟨64, sha1⟩), ("sha256", ⟨64, sha256⟩)]

/-- `hmac.new(key, msg, hashmod).digest()` (RFC 2104): hash a key longer
than the block, zero-pad it, and apply the inner/outer padded hashes. -/
def hmacDigest (H : HashMod) (key msg : List Nat) : List Nat :=
  let k0 := if key.length > H.block_size then H.digest key else key
  let k := k0 ++ List.replicate (H.block_size - k0.length) 0
  H.digest ((k.map (fun b => b ^^^ 0x5c)) ++
    H.digest ((k.map (fun b => b ^^^ 0x36)) ++ msg))

/-- The base64 alphabet. -/
def b64chars : List Char :=
  "ABCDEFGHIJKLMNOPQRSTUVWXYZabcdefghijklmnopqrstuvwxyz0123456789+/".data

/-- The base64 digit for a 6-bit group. -/
def b64char (n : Nat) : Char := b64chars.getD n 'A'

/-- Standard base64 of a byte list, three bytes at a time, `=`-padded. -/
def b64encodeAux : List Nat → List Char
  | a :: b :: c :: rest =>
    let w := a * 65536 + b * 256 + c
    b64char (w / 262144 % 64) :: b64char (w / 4096 % 64) ::
      b64char (w / 64 % 64) :: b64char (w % 64) :: b64encodeAux rest
  | [a, b] =>
    let w := a * 65536 + b * 256
    [b64char (w / 262144 % 64), b64char (w / 4096 % 64),
     b64char (w / 64 % 64), '=']
  | [a] =>
    let w := a * 65536
    [b64char (w / 262144 % 64), b64char (w / 4096 % 64), '=', '=']
  | [] => []

/-- `b64encode(data)`: base64-encode bytes into a native string. -/
def b64encode (bs : List Nat) : String := ⟨b64encodeAux bs⟩

/-- Python `s.encode("ascii")`: the byte list of the code points when all
are below 128, a `UnicodeEncodeError` otherwise. -/
def encodeAscii (s : String) : Except PyErr (List Nat) :=
  if s.data.all (fun c => c.toNat < 128) then .ok (s.data.map Char.toNat)
  else .error .unicodeEncodeError

/-- `get_signature(request, key, params, algorithm=None)`: the Hawk
signature — the base64 HMAC of the ASCII-encoded normalized request string
under the ASCII-encoded key, with the hash looked up in `ALGORITHMS`
(a missing name raises `KeyError` as a Python dict lookup does). -/
def get_signature (req : Request) (key : String) (params : Option AuthParams)
    (algorithm : Option String) : Except PyErr String :=
  let alg := match algorithm with | none => "sha256" | some a => a
  match get_normalized_request_string req params none with
  | .error e => .error e
  | .ok sigstr =>
    match encodeAscii sigstr with
    | .error e => .error e
    | .ok sigbytes =>
      match encodeAscii key with
      | .error e => .error e
      | .ok keybytes =>
        match ALGORITHMS.lookup alg with
        | none => .error (.keyError alg)
        | some H => .ok (b64encode (hmacDigest H keybytes sigbytes))

/-- The `for a, b in zip(string1, string2)` loop of `strings_differ`,
instrumented: returns the number of per-character comparisons performed
and the accumulated sum of pairwise XORs of the character codes. -/
def sdLoop : List Char → List Char → Nat × Nat
  | a :: s1, b :: s2 =>
    let r := sdLoop s1 s2
    (r.1 + 1, r.2 + (a.toNat ^^^ b.toNat))
  | _, _ => (0, 0)

/-- `strings_differ(string1, string2)`: `True` when the lengths differ,
else whether the accumulated XOR sum over all character pairs is nonzero. -/
def strings_differ (s1 s2 : String) : Bool :=
  if s1.length ≠ s2.length then true
  else (sdLoop s1.data s2.data).2 ≠ 0

/-! ## Claim theorems -/

/-- C1: for a GET of `/resource?a=1` on `example.com` over `http` with
`ts=1353832234`, `nonce=j4h3g2` and no hash/ext parameters and no
server-supplied hash, the normalized request string is exactly the
fixed-order newline-joined string with a trailing newline. -/
theorem c1_normalized_request_exact :
    get_normalized_request_string
      ⟨"GET", "/resource?a=1", "example.com", "http", none, "", ""⟩
      (some [("ts", "1353832234"), ("nonce", "j4h3g2")]) none =
    .ok "hawk.1.header\n1353832234\nj4h3g2\nGET\n/resource?a=1\nexample.com\n80\n\n\n" := by
  rfl

/-- C3 counterexample: parsing the scheme-only header value `Hawk` does not
succeed with a scheme-only parameter map — the two-way whitespace split
cannot unpack and the parse raises `ValueError`. -/
theorem c3_counterexample :
    parse_authz_header (some "Hawk") none =
      .error (.valueError "not enough values to unpack") := by
  rfl

/-- C3 (amended): a header value consisting only of a scheme name, with no
whitespace-separated remainder, fails to parse: the two-way split into
scheme and parameter string raises `ValueError`, so the call errors when no
default is supplied and returns the supplied default instead. -/
theorem c3_scheme_only_fails (d : AuthParams) :
    parse_authz_header (some "Hawk") none =
      .error (.valueError "not enough values to unpack") ∧
    parse_authz_header (some "Hawk") (some d) = .ok d := by
  exact ⟨rfl, rfl⟩

/-- C5: a comma inside a quoted value does not split the pair —
`Hawk a="x,y", b="z"` parses to the scheme entry plus `a = x,y`, `b = z`;
the comma-split chunk `a="x` fails the parameter grammar and is re-joined
with the following chunk before being accepted. -/
theorem c5_comma_in_value :
    parse_authz_header (some "Hawk a=\"x,y\", b=\"z\"") none =
      .ok [("scheme", "Hawk"), ("a", "x,y"), ("b", "z")] ∧
    stitch (splitComma ("a=\"x,y\", b=\"z\"".data)) =
      ["a=\"x,y\"".data, " b=\"z\"".data] ∧
    authParamMatch ("a=\"x".data) = false ∧
    authParamMatch ("a=\"x,y\"".data) = true := by
  refine ⟨rfl, rfl, rfl, rfl⟩

/-- C6: quoted-value decoding — a backslash-escaped quote is resolved
(`k="a\"b"` yields `a"b`), an empty quoted string yields the present key
with empty value, and an unescaped interior quote (including one at
position 0 of the stripped value) makes the parse raise. -/
theorem c6_quoted_value_decoding :
    parse_authz_header (some "Hawk k=\"a\\\"b\"") none =
      .ok [("scheme", "Hawk"), ("k", "a\"b")] ∧
    parse_authz_header (some "Hawk k=\"\"") none =
      .ok [("scheme", "Hawk"), ("k", "")] ∧
    parse_authz_header (some "Hawk k=\"a\"b\"") none =
      .error (.valueError "Unescaped quote in quoted-string") ∧
    parse_authz_header (some "Hawk k=\"\"a\"") none =
      .error (.valueError "Unescaped quote in quoted-string") := by
  refine ⟨rfl, rfl, rfl, rfl⟩

/-- The comparison loop performs exactly `min |l1| |l2|` character
comparisons, independent of the contents. -/
theorem sdLoop_count (l1 l2 : List Char) :
    (sdLoop l1 l2).1 = min l1.length l2.length := by
  induction l1 generalizing l2 with
  | nil => cases l2 <;> simp [sdLoop]
  | cons a s1 ih =>
    cases l2 with
    | nil => simp [sdLoop]
    | cons b s2 =>
      simp only [sdLoop, List.length_cons]
      rw [ih s2]
      omega

/-- For equal-length lists the XOR accumulator is zero exactly when the
lists are equal. -/
theorem sdLoop_acc_zero (l1 l2 : List Char) (h : l1.length = l2.length) :
    ((sdLoop l1 l2).2 = 0 ↔ l1 = l2) := by
  induction l1 generalizing l2 with
  | nil =>
    cases l2 with
    | nil => simp [sdLoop]
    | cons b s2 => simp at h
  | cons a s1 ih =>
    cases l2 with
    | nil => simp at h
    | cons b s2 =>
      simp only [List.length_cons, Nat.succ.injEq] at h
      simp only [sdLoop, Nat.add_eq_zero, List.cons.injEq]
      rw [ih s2 h, Nat.xor_eq_zero]
      constructor
      · rintro ⟨h1, h2⟩
        exact ⟨Char.ext (UInt32.ext h2), h1⟩
      · rintro ⟨rfl, rfl⟩
        exact ⟨rfl, rfl⟩

/-- C9: `strings_differ` returns `True` immediately on a length mismatch;
for equal-length inputs it performs exactly one comparison per character
pair — the comparison count equals the common length whatever the contents
— and returns whether the accumulated XOR sum is nonzero, which holds
exactly when the strings differ. -/
theorem c9_strings_differ_constant_time (s1 s2 : String) :
    (s1.length ≠ s2.length → strings_differ s1 s2 = true) ∧
    (s1.length = s2.length →
      (sdLoop s1.data s2.data).1 = s1.length ∧
      (strings_differ s1 s2 = true ↔ s1 ≠ s2)) := by
  constructor
  · intro h
    simp [strings_differ, h]
  · intro h
    have hd : s1.data.length = s2.data.length := h
    refine ⟨by rw [sdLoop_count, ← hd, Nat.min_self]; rfl, ?_⟩
    rw [strings_differ, if_neg (not_not_intro h), decide_eq_true_eq]
    exact not_congr ((sdLoop_acc_zero s1.data s2.data hd).trans String.ext_iff.symm)

/-- C9 witness: at `"abc"`/`"abd"` the loop performs three comparisons and
reports a difference; at `"ab"`/`"abc"` the length check fires. -/
theorem c9_witness :
    ((sdLoop "abc".data "abd".data).1 = "abc".length ∧
      (strings_differ "abc" "abd" = true ↔ "abc" ≠ "abd")) ∧
    strings_differ "ab" "abc" = true :=
  ⟨(c9_strings_differ_constant_time "abc" "abd").2 rfl,
   (c9_strings_differ_constant_time "ab" "abc").1 (by decide)⟩

/-- C10: the normalized request string requires the `ts` and `nonce`
parameters and fails with `KeyError` when either is absent; in particular
with `params=None` and no Authorization header the parse falls back to the
empty default map and the call fails with `KeyError "ts"` rather than a
missing-credentials error. -/
theorem c10_keyerror_on_missing_params (req : Request) (sh : Option String) :
    (req.authz = none →
      get_normalized_request_string req none sh = .error (.keyError "ts")) ∧
    (∀ m : AuthParams, m.lookup "ts" = none →
      get_normalized_request_string req (some m) sh = .error (.keyError "ts")) ∧
    (∀ (m : AuthParams) (ts : String), m.lookup "ts" = some ts →
      m.lookup "nonce" = none →
      get_normalized_request_string req (some m) sh = .error (.keyError "nonce")) := by
  refine ⟨?_, ?_, ?_⟩
  · intro h
    simp [get_normalized_request_string, h]
    rfl
  · intro m hm
    simp [get_normalized_request_string, hm]
  · intro m ts hts hn
    simp [get_normalized_request_string, hts, hn]

/-- C10 witness: a request with no Authorization header and `params=None`
fails with `KeyError "ts"`, and maps missing `ts` or `nonce` fail likewise. -/
theorem c10_witness :
    get_normalized_request_string
      ⟨"GET", "/", "example.com", "http", none, "", ""⟩ none none =
      .error (.keyError "ts") ∧
    get_normalized_request_string
      ⟨"GET", "/", "example.com", "http", none, "", ""⟩ (some []) none =
      .error (.keyError "ts") ∧
    get_normalized_request_string
      ⟨"GET", "/", "example.com", "http", none, "", ""⟩
      (some [("ts", "1")]) none = .error (.keyError "nonce") :=
  ⟨(c10_keyerror_on_missing_params _ none).1 rfl,
   (c10_keyerror_on_missing_params _ none).2.1 [] rfl,
   (c10_keyerror_on_missing_params _ none).2.2 [("ts", "1")] "1" rfl rfl⟩

/-- Every error raised by the kvpair loop body is a `ValueError`. -/
theorem parseKvpair_error (params : AuthParams) (kv : List Char) (e : PyErr)
    (h : parseKvpair params kv = .error e) : ∃ s, e = .valueError s := by
  rw [parseKvpair] at h
  split at h
  · exact ⟨_, ((Except.error.injEq _ _).mp h).symm⟩
  · split at h
    · split at h
      · exact ⟨_, ((Except.error.injEq _ _).mp h).symm⟩
      · exact absurd h (by simp)
    · exact absurd h (by simp)

/-- Every error raised by the chunk acceptance check is a `ValueError`. -/
theorem kvpairsOf_error (kvl : List Char) (e : PyErr)
    (h : kvpairsOf kvl = .error e) : ∃ s, e = .valueError s := by
  rw [kvpairsOf] at h
  split at h
  · exact absurd h (by simp)
  · split at h
    · split at h
      · exact absurd h (by simp)
      · exact ⟨_, ((Except.error.injEq _ _).mp h).symm⟩
    · exact ⟨_, ((Except.error.injEq _ _).mp h).symm⟩

/-- Every error raised while folding the kvpair loop over the accepted
chunks is a `ValueError`. -/
theorem foldlM_parseKvpair_error (kvs : List (List Char)) :
    ∀ (init : AuthParams) (e : PyErr),
      List.foldlM parseKvpair init kvs = .error e → ∃ s, e = .valueError s := by
  induction kvs with
  | nil =>
    intro init e h
    simp [List.foldlM, pure, Except.pure] at h
  | cons kv rest ih =>
    intro init e h
    rw [List.foldlM_cons] at h
    rcases hk : parseKvpair init kv with e' | b <;> rw [hk] at h
    · simp only [Bind.bind, Except.bind] at h
      obtain rfl : e' = e := (Except.error.injEq _ _).mp h
      exact parseKvpair_error init kv _ hk
    · simp only [Bind.bind, Except.bind] at h
      exact ih b e h

/-- Every error raised by the parse before the `except ValueError` handler
is a `ValueError`. -/
theorem parse_inner_error (authz : Option String) (e : PyErr)
    (h : parse_authz_header_inner authz = .error e) : ∃ s, e = .valueError s := by
  rcases authz with _ | a
  · exact ⟨_, ((Except.error.injEq _ _).mp h).symm⟩
  · rw [parse_authz_header_inner] at h
    split at h
    · split at h
      · next e1 he1 =>
        obtain rfl : e1 = e := (Except.error.injEq _ _).mp h
        exact kvpairsOf_error _ _ he1
      · exact foldlM_parseKvpair_error _ _ e h
    · exact ⟨_, ((Except.error.injEq _ _).mp h).symm⟩

/-- C7: when the Authorization header is absent or malformed the parse
raises when no default is supplied and returns the supplied default
otherwise; on success the default is ignored and the parsed map returned. -/
theorem c7_default_fallback (authz : Option String) (d m : AuthParams) :
    (∀ e, parse_authz_header_inner authz = .error e →
      parse_authz_header authz none = .error e ∧
      parse_authz_header authz (some d) = .ok d) ∧
    (parse_authz_header_inner authz = .ok m →
      parse_authz_header authz none = .ok m ∧
      parse_authz_header authz (some d) = .ok m) ∧
    (authz = none →
      parse_authz_header_inner authz = .error (.valueError "Missing auth parameters")) := by
  refine ⟨?_, ?_, ?_⟩
  · intro e he
    obtain ⟨s, rfl⟩ := parse_inner_error authz e he
    rw [parse_authz_header, parse_authz_header, he]
    exact ⟨rfl, rfl⟩
  · intro hm
    rw [parse_authz_header, parse_authz_header, hm]
    exact ⟨rfl, rfl⟩
  · rintro rfl
    rfl

/-- C7 witness: a missing header raises `ValueError` without a default and
returns the default with one; a well-formed header ignores the default. -/
theorem c7_witness :
    (parse_authz_header none none =
        .error (.valueError "Missing auth parameters") ∧
      parse_authz_header none (some [("scheme", "X")]) = .ok [("scheme", "X")]) ∧
    (parse_authz_header (some "Hawk a=b") none =
        .ok [("scheme", "Hawk"), ("a", "b")] ∧
      parse_authz_header (some "Hawk a=b") (some []) =
        .ok [("scheme", "Hawk"), ("a", "b")]) :=
  ⟨(c7_default_fallback none [("scheme", "X")] []).1 _ rfl,
   (c7_default_fallback (some "Hawk a=b") [] [("scheme", "Hawk"), ("a", "b")]).2.1 rfl⟩

/-- `joinNl` of four fields ending in the empty field is the three fields
separated and terminated by newlines. -/
theorem joinNl_four (a b c : String) :
    joinNl [a, b, c, ""] = a ++ "\n" ++ b ++ "\n" ++ c ++ "\n" := by
  simp only [joinNl, String.append_empty, String.append_assoc]

/-- `takeWhile (· ≠ ';')` of a list with no semicolon followed by a
semicolon takes exactly the semicolon-free part. -/
theorem takeWhile_before_semi (p rest : List Char) (hp : (';') ∉ p) :
    (p ++ ';' :: rest).takeWhile (fun c => c ≠ ';') = p := by
  induction p with
  | nil => simp [List.takeWhile]
  | cons a q ih =>
    have ha : a ≠ ';' := fun h => hp (h ▸ List.mem_cons_self a q)
    have hq : (';') ∉ q := fun h => hp (List.mem_cons_of_mem a h)
    simp only [List.cons_append, List.takeWhile_cons, decide_eq_true_eq]
    rw [if_pos ha, ih hq]

/-- `takeWhile (· ≠ ';')` of a semicolon-free list is the whole list. -/
theorem takeWhile_no_semi (p : List Char) (hp : (';') ∉ p) :
    p.takeWhile (fun c => c ≠ ';') = p := by
  induction p with
  | nil => rfl
  | cons a q ih =>
    have ha : a ≠ ';' := fun h => hp (h ▸ List.mem_cons_self a q)
    have hq : (';') ∉ q := fun h => hp (List.mem_cons_of_mem a h)
    simp only [List.takeWhile_cons, decide_eq_true_eq]
    rw [if_pos ha, ih hq]

/-- C8: the payload string is absent exactly when the body text is empty;
for a non-empty body it is the `hawk.1.payload` tag, the content type
truncated at the first `;` then trimmed and lowercased, and the raw body
text, newline-separated with a trailing newline. -/
theorem c8_payload_string (req : Request) :
    (req.text = "" → get_normalized_payload_string req = none) ∧
    (req.text ≠ "" → get_normalized_payload_string req =
      some ("hawk.1.payload" ++ "\n" ++ ctNorm req.content_type ++ "\n" ++
        req.text ++ "\n")) ∧
    (∀ pre post : String, req.content_type = pre ++ ";" ++ post →
      (';') ∉ pre.data →
      ctNorm req.content_type = pyLower ⟨pyStripL pre.data⟩) ∧
    ((';') ∉ req.content_type.data →
      ctNorm req.content_type = pyLower ⟨pyStripL req.content_type.data⟩) := by
  refine ⟨?_, ?_, ?_, ?_⟩
  · intro h
    rw [get_normalized_payload_string, if_pos h]
  · intro h
    rw [get_normalized_payload_string, if_neg h, joinNl_four]
  · intro pre post hct hpre
    rw [ctNorm, hct]
    have : ((pre ++ ";") ++ post).data = pre.data ++ ';' :: post.data := by
      rw [String.data_append, String.data_append]
      simp
    rw [this, takeWhile_before_semi pre.data post.data hpre]
  · intro h
    rw [ctNorm, takeWhile_no_semi req.content_type.data h]

/-- C8 witness: a request with empty body has no payload string; one with
body `hello` and content type `Text/Plain; charset=utf-8` yields the exact
payload string with the parameters stripped and the type lowercased. -/
theorem c8_witness :
    get_normalized_payload_string ⟨"GET", "/", "h", "http", none, "text/plain", ""⟩ =
      none ∧
    get_normalized_payload_string
      ⟨"POST", "/", "h", "http", none, "Text/Plain; charset=utf-8", "hello"⟩ =
      some ("hawk.1.payload" ++ "\n" ++
        ctNorm "Text/Plain; charset=utf-8" ++ "\n" ++ "hello" ++ "\n") ∧
    ctNorm "Text/Plain; charset=utf-8" = pyLower ⟨pyStripL "Text/Plain".data⟩ :=
  ⟨(c8_payload_string _).1 rfl,
   (c8_payload_string ⟨"POST", "/", "h", "http", none, "Text/Plain; charset=utf-8", "hello"⟩).2.1
     (by decide),
   (c8_payload_string ⟨"POST", "/", "h", "http", none, "Text/Plain; charset=utf-8", "hello"⟩).2.2.1
     "Text/Plain" " charset=utf-8" rfl (by decide)⟩

/-- `rsplit(":", 1)` on a colon-free list cannot split. -/
theorem rsplitColon1_of_no_colon (l : List Char) (h : (':') ∉ l) :
    rsplitColon1 l = none := by
  induction l with
  | nil => rfl
  | cons c rest ih =>
    have hc : c ≠ ':' := fun hh => h (hh ▸ List.mem_cons_self c rest)
    have hr : (':') ∉ rest := fun hh => h (List.mem_cons_of_mem c hh)
    rw [rsplitColon1, ih hr]
    simp [hc]

/-- `rsplit(":", 1)` splits at the last colon: with no colon after it, the
pieces are exactly the parts before and after that colon. -/
theorem rsplitColon1_last (h p : List Char) (hp : (':') ∉ p) :
    rsplitColon1 (h ++ ':' :: p) = some (h, p) := by
  induction h with
  | nil =>
    rw [List.nil_append, rsplitColon1, rsplitColon1_of_no_colon p hp]
    simp
  | cons c rest ih =>
    rw [List.cons_append, rsplitColon1, ih]

/-- C4: a `:port` suffix in the host is used verbatim as the port with the
part before it (lowercased) as the host; without a colon, scheme `http`
yields port 80, `https` yields 443, and any other scheme raises. -/
theorem c4_host_port_derivation (req : Request) (m : AuthParams)
    (sh : Option String) (ts nonce : String)
    (hts : m.lookup "ts" = some ts) (hn : m.lookup "nonce" = some nonce) :
    (∀ h p : String, req.host = h ++ ":" ++ p → (':') ∉ p.data →
      get_normalized_request_string req (some m) sh =
        .ok (joinNl ["hawk.1.header", ts, nonce, pyUpper req.method,
          req.path_qs, pyLower h, p, hashField m sh, pyGet m "ext" "", ""])) ∧
    ((':') ∉ req.host.data →
      (req.scheme = "http" →
        get_normalized_request_string req (some m) sh =
          .ok (joinNl ["hawk.1.header", ts, nonce, pyUpper req.method,
            req.path_qs, pyLower req.host, "80", hashField m sh,
            pyGet m "ext" "", ""])) ∧
      (req.scheme = "https" →
        get_normalized_request_string req (some m) sh =
          .ok (joinNl ["hawk.1.header", ts, nonce, pyUpper req.method,
            req.path_qs, pyLower req.host, "443", hashField m sh,
            pyGet m "ext" "", ""])) ∧
      (req.scheme ≠ "http" → req.scheme ≠ "https" →
        get_normalized_request_string req (some m) sh =
          .error (.valueError
            ("Unknown scheme " ++ req.scheme ++ " has no default port")))) := by
  constructor
  · intro h p hhost hp
    have hdata : req.host.data = h.data ++ ':' :: p.data := by
      rw [hhost, String.data_append, String.data_append]
      simp
    have hhp : hostPort req.host req.scheme = .ok (h, p) := by
      rw [hostPort, hdata, rsplitColon1_last h.data p.data hp]
    rw [get_normalized_request_string]
    simp only [hts, hn, hhp]
  · intro hc
    have hnone : rsplitColon1 req.host.data = none :=
      rsplitColon1_of_no_colon req.host.data hc
    refine ⟨?_, ?_, ?_⟩
    · intro hs
      have hhp : hostPort req.host req.scheme = .ok (req.host, "80") := by
        rw [hostPort, hnone, if_pos hs]
      rw [get_normalized_request_string]
      simp only [hts, hn, hhp]
    · intro hs
      have hhp : hostPort req.host req.scheme = .ok (req.host, "443") := by
        rw [hostPort, hnone, if_neg (by simp [hs]), if_pos hs]
      rw [get_normalized_request_string]
      simp only [hts, hn, hhp]
    · intro h1 h2
      have hhp : hostPort req.host req.scheme =
          .error (.valueError
            ("Unknown scheme " ++ req.scheme ++ " has no default port")) := by
        rw [hostPort, hnone, if_neg h1, if_neg h2]
      rw [get_normalized_request_string]
      simp only [hts, hn, hhp]

/-- C4 witness: an explicit `:8080` suffix is kept verbatim with the host
part lowercased; `https` without a port yields 443; scheme `ftp` raises. -/
theorem c4_witness :
    get_normalized_request_string
      ⟨"get", "/r", "EXample.com:8080", "http", none, "", ""⟩
      (some [("ts", "1"), ("nonce", "n")]) none =
      .ok (joinNl ["hawk.1.header", "1", "n", pyUpper "get", "/r",
        pyLower "EXample.com", "8080",
        hashField [("ts", "1"), ("nonce", "n")] none,
        pyGet [("ts", "1"), ("nonce", "n")] "ext" "", ""]) ∧
    get_normalized_request_string
      ⟨"GET", "/r", "example.com", "https", none, "", ""⟩
      (some [("ts", "1"), ("nonce", "n")]) none =
      .ok (joinNl ["hawk.1.header", "1", "n", pyUpper "GET", "/r",
        pyLower "example.com", "443",
        hashField [("ts", "1"), ("nonce", "n")] none,
        pyGet [("ts", "1"), ("nonce", "n")] "ext" "", ""]) ∧
    get_normalized_request_string
      ⟨"GET", "/r", "example.com", "ftp", none, "", ""⟩
      (some [("ts", "1"), ("nonce", "n")]) none =
      .error (.valueError ("Unknown scheme " ++ "ftp" ++ " has no default port")) :=
  ⟨(c4_host_port_derivation ⟨"get", "/r", "EXample.com:8080", "http", none, "", ""⟩
      [("ts", "1"), ("nonce", "n")] none "1" "n" rfl rfl).1
      "EXample.com" "8080" rfl (by decide),
   ((c4_host_port_derivation ⟨"GET", "/r", "example.com", "https", none, "", ""⟩
      [("ts", "1"), ("nonce", "n")] none "1" "n" rfl rfl).2 (by decide)).2.1 rfl,
   ((c4_host_port_derivation ⟨"GET", "/r", "example.com", "ftp", none, "", ""⟩
      [("ts", "1"), ("nonce", "n")] none "1" "n" rfl rfl).2 (by decide)).2.2
      (by decide) (by decide)⟩

/-- C2: once the normalized request string is computed and string and key
are ASCII-encoded, the signature is the base64 of the HMAC digest of the
encoded string under the encoded key with the hash constructor looked up
by name in the registry, and an unregistered name makes the call fail
(with the `KeyError` of the registry lookup). -/
theorem c2_signature_is_b64_hmac (req : Request) (key : String)
    (params : Option AuthParams) (a : String) (s : String)
    (sb kb : List Nat)
    (hs : get_normalized_request_string req params none = .ok s)
    (hsb : encodeAscii s = .ok sb)
    (hkb : encodeAscii key = .ok kb) :
    (∀ H : HashMod, ALGORITHMS.lookup a = some H →
      get_signature req key params (some a) =
        .ok (b64encode (hmacDigest H kb sb))) ∧
    (ALGORITHMS.lookup a = none →
      get_signature req key params (some a) = .error (.keyError a)) := by
  constructor
  · intro H hH
    rw [get_signature]
    simp only [hs, hsb, hkb, hH]
  · intro hN
    rw [get_signature]
    simp only [hs, hsb, hkb, hN]

/-- C2 witness: for a concrete GET request a registered name (`sha256`)
yields the base64 HMAC and the unregistered name `md5` fails. -/
theorem c2_witness :
    get_signature ⟨"GET", "/resource?a=1", "example.com", "http", none, "", ""⟩
      "secretkey" (some [("ts", "1353832234"), ("nonce", "j4h3g2")]) (some "sha256") =
      .ok (b64encode (hmacDigest ⟨64, sha256⟩
        ("secretkey".data.map Char.toNat)
        (("hawk.1.header\n1353832234\nj4h3g2\nGET\n/resource?a=1\nexample.com\n80\n\n\n").data.map
          Char.toNat))) ∧
    get_signature ⟨"GET", "/resource?a=1", "example.com", "http", none, "", ""⟩
      "secretkey" (some [("ts", "1353832234"), ("nonce", "j4h3g2")]) (some "md5") =
      .error (.keyError "md5") :=
  ⟨(c2_signature_is_b64_hmac
      ⟨"GET", "/resource?a=1", "example.com", "http", none, "", ""⟩ "secretkey"
      (some [("ts", "1353832234"), ("nonce", "j4h3g2")]) "sha256"
      "hawk.1.header\n1353832234\nj4h3g2\nGET\n/resource?a=1\nexample.com\n80\n\n\n"
      (("hawk.1.header\n1353832234\nj4h3g2\nGET\n/resource?a=1\nexample.com\n80\n\n\n").data.map
        Char.toNat)
      ("secretkey".data.map Char.toNat) rfl rfl rfl).1 ⟨64, sha256⟩ rfl,
   (c2_signature_is_b64_hmac
      ⟨"GET", "/resource?a=1", "example.com", "http", none, "", ""⟩ "secretkey"
      (some [("ts", "1353832234"), ("nonce", "j4h3g2")]) "md5"
      "hawk.1.header\n1353832234\nj4h3g2\nGET\n/resource?a=1\nexample.com\n80\n\n\n"
      (("hawk.1.header\n1353832234\nj4h3g2\nGET\n/resource?a=1\nexample.com\n80\n\n\n").data.map
        Char.toNat)
      ("secretkey".data.map Char.toNat) rfl rfl rfl).2 rfl⟩

end Hawk
